import Mathlib

/-!
Verification of the connection/message-routing core of `rag_server.py`.

The source is a websocket server: a single `RAGServer` object holds a set
`connected_clients` of live websockets and one field `pdf_data` (initially
`None`).  `handle_connection` adds the websocket to the set, loops over
incoming text frames, decodes each with `json.loads` (a decode failure is
answered with an error reply), runs `handle_message`, converts any other
exception into an error reply, and in a `finally:` block calls
`self.connected_clients.remove(websocket)`.  `handle_message` answers a
frame containing a `setup` key with a setup acknowledgement, otherwise
walks the `media_chunks` of a `realtime_input` frame, storing a PDF chunk's
`data` field into `self.pdf_data` and acknowledging it, answering an audio
chunk with a placeholder response, and skipping every other chunk silently.

The embedding below models decoded JSON values, the dynamic Python
operations the handler applies to them (`in`, subscription, `dict.get`,
iteration), exceptions as `Except`/`Option PyErr` values, and the handler
itself as a pure state-passing function from server state and frame to the
new server state plus the list of JSON replies written to the websocket.
-/

/-- JSON value as produced by `json.loads`: null, booleans, numbers
(modelled as integers; no claim depends on floats), strings, arrays, and
string-keyed objects (Python dicts, so keys are unique after parsing). -/
inductive JValue where
  | null : JValue
  | bool (b : Bool) : JValue
  | num (n : Int) : JValue
  | str (s : String) : JValue
  | arr (xs : List JValue) : JValue
  | obj (kvs : List (String × JValue)) : JValue

/-- Python exception raised while handling one message, with its `str(e)`
rendering (used for the generic error reply in `handle_connection`). -/
inductive PyErr where
  | typeError (msg : String) : PyErr
  | attributeError (msg : String) : PyErr
  | keyError (msg : String) : PyErr

/-- Message text of an exception, as `str(e)` in the source's
`await websocket.send(json.dumps(\x7b"error": str(e)\x7d))`. -/
def PyErr.message : PyErr → String
  | .typeError m => m
  | .attributeError m => m
  | .keyError m => m

/-- Boolean test that a JSON value is a given string: the Python comparison
`mime_type == "application/pdf"` (equal only when the value is that
string; `None`, numbers, etc. compare unequal). -/
def jvalIsStr (v : JValue) (s : String) : Bool :=
  match v with
  | .str t => t = s
  | _ => false

/-- Lookup of a key in a decoded JSON object (Python dict indexing /
`dict.get`); first match, which is the only match since `json.loads`
produces dicts with unique keys. -/
def objLookup (kvs : List (String × JValue)) (key : String) : Option JValue :=
  match kvs with
  | [] => none
  | (k, v) :: rest => if k = key then some v else objLookup rest key

/-- Python `dict.get(key)`: the stored value, or `None` when absent. -/
def dictGet (kvs : List (String × JValue)) (key : String) : JValue :=
  (objLookup kvs key).getD .null

/-- Boolean test that one character list starts with another (helper for
Python's substring containment on strings). -/
def startsWithL : List Char → List Char → Bool
  | [], _ => true
  | _ :: _, [] => false
  | a :: as, b :: bs => a = b && startsWithL as bs

/-- Boolean substring containment on character lists: Python's
`needle in haystack` for two strings. -/
def containsSubL (pat : List Char) : List Char → Bool
  | [] => pat.isEmpty
  | c :: rest => startsWithL pat (c :: rest) || containsSubL pat rest

/-- Python's `key in value` for a string key against an arbitrary decoded
JSON value, as in `"setup" in data`: key membership for dicts, element
membership for lists, substring containment for strings, and a
`TypeError` for the non-iterable types (numbers, booleans, `None`). -/
def pyContains (v : JValue) (key : String) : Except PyErr Bool :=
  match v with
  | .obj kvs => .ok (kvs.any fun kv => kv.1 = key)
  | .arr xs => .ok (xs.any fun x => jvalIsStr x key)
  | .str s => .ok (containsSubL key.data s.data)
  | .bool _ => .error (.typeError "argument of type bool is not iterable")
  | .num _ => .error (.typeError "argument of type int is not iterable")
  | .null => .error (.typeError "argument of type NoneType is not iterable")

/-- Python subscription `value[key]` with a string key, as in
`data["realtime_input"]`: dict lookup (raising `KeyError` when absent),
`TypeError` on every other type. -/
def pySubscript (v : JValue) (key : String) : Except PyErr JValue :=
  match v with
  | .obj kvs =>
    match objLookup kvs key with
    | some x => .ok x
    | none => .error (.keyError key)
  | .str _ => .error (.typeError "string indices must be integers")
  | .arr _ => .error (.typeError "list indices must be integers")
  | _ => .error (.typeError "object is not subscriptable")

/-- Python `value.get(key, default)`, as in
`input_data.get("media_chunks", [])`: only dicts have a `get` attribute,
every other type raises `AttributeError`. -/
def pyGetDefault (v : JValue) (key : String) (dflt : JValue) : Except PyErr JValue :=
  match v with
  | .obj kvs => .ok ((objLookup kvs key).getD dflt)
  | _ => .error (.attributeError "object has no attribute get")

/-- Python `value.get(key)` returning `None` when the key is absent, as in
`chunk.get("mime_type")` and `chunk.get("data")`. -/
def pyGetNone (v : JValue) (key : String) : Except PyErr JValue :=
  match v with
  | .obj kvs => .ok (dictGet kvs key)
  | _ => .error (.attributeError "object has no attribute get")

/-- Python iteration `for chunk in media_chunks`: lists yield their
elements, strings their one-character substrings, dicts their keys; the
remaining types raise `TypeError`. -/
def pyIter (v : JValue) : Except PyErr (List JValue) :=
  match v with
  | .arr xs => .ok xs
  | .str s => .ok (s.data.map fun c => .str (String.mk [c]))
  | .obj kvs => .ok (kvs.map fun kv => .str kv.1)
  | _ => .error (.typeError "object is not iterable")

/-- Server state of the single `RAGServer` object: the set of connected
websockets (modelled as naturals) and the `pdf_data` field, initially
`None` (modelled as JSON null, which is also what `json.loads` gives for
a JSON `null` and what `dict.get` gives for a missing key). -/
structure RAGServer where
  connected_clients : Finset Nat
  pdf_data : JValue

/-- Reply sent for a frame containing a `setup` key. -/
def setupCompleteJson : JValue := .obj [("status", .str "setup_complete")]

/-- Acknowledgement sent after storing a PDF chunk, with its fixed
confirmation message. -/
def pdfAckJson : JValue :=
  .obj [("status", .str "pdf_received"),
        ("message", .str "PDF has been processed successfully")]

/-- Placeholder implementation of `RAGServer.process_audio`: it ignores
its argument and returns a fixed response string. -/
def process_audio (audio_data : JValue) : String :=
  "I received your audio input. This is a placeholder response."

/-- Reply sent for an audio chunk: text and audio fields both carry the
response string. -/
def audioResponseJson (t : String) : JValue :=
  .obj [("text", .str t), ("audio", .str t)]

/-- Error reply shape used both for JSON decode failures and for
exceptions escaping `handle_message`. -/
def errorJson (m : String) : JValue := .obj [("error", .str m)]

/-- Body of the `for chunk in media_chunks` loop for one chunk: read
`mime_type` and `data` via `.get`, store the PDF payload and acknowledge
it, answer audio with the placeholder, silently skip anything else.
Returns the new state, the replies sent for this chunk, and the exception
that aborted it, if any. -/
def handle_chunk (s : RAGServer) (chunk : JValue) :
    RAGServer × List JValue × Option PyErr :=
  match pyGetNone chunk "mime_type" with
  | .error e => (s, [], some e)
  | .ok mime_type =>
    match pyGetNone chunk "data" with
    | .error e => (s, [], some e)
    | .ok chunk_data =>
      if jvalIsStr mime_type "application/pdf" then
        ({ s with pdf_data := chunk_data }, [pdfAckJson], none)
      else if jvalIsStr mime_type "audio/pcm" then
        (s, [audioResponseJson (process_audio chunk_data)], none)
      else
        (s, [], none)

/-- The chunk loop of `handle_message`: chunks are handled left to right,
replies accumulate in order, and an exception aborts the loop (the sends
and state changes already made stand). -/
def handle_chunks (s : RAGServer) : List JValue → RAGServer × List JValue × Option PyErr
  | [] => (s, [], none)
  | c :: cs =>
    match handle_chunk s c with
    | (s1, r1, some e) => (s1, r1, some e)
    | (s1, r1, none) =>
      match handle_chunks s1 cs with
      | (s2, r2, e2) => (s2, r1 ++ r2, e2)

/-- Embedding of `RAGServer.handle_message`: a frame with a `setup` key
(under Python's `in`) is acknowledged and nothing else runs; otherwise a
frame with a `realtime_input` key has its `media_chunks` (absent key
defaulting to `[]`) iterated through `handle_chunk`; any other frame
falls through with no reply.  Exceptions are returned to the caller. -/
def handle_message (s : RAGServer) (data : JValue) :
    RAGServer × List JValue × Option PyErr :=
  match pyContains data "setup" with
  | .error e => (s, [], some e)
  | .ok true => (s, [setupCompleteJson], none)
  | .ok false =>
    match pyContains data "realtime_input" with
    | .error e => (s, [], some e)
    | .ok false => (s, [], none)
    | .ok true =>
      match pySubscript data "realtime_input" with
      | .error e => (s, [], some e)
      | .ok input_data =>
        match pyGetDefault input_data "media_chunks" (.arr []) with
        | .error e => (s, [], some e)
        | .ok mc =>
          match pyIter mc with
          | .error e => (s, [], some e)
          | .ok chunks => handle_chunks s chunks

/-- One iteration of the `async for message in websocket` loop in
`handle_connection`: a frame is the outcome of `json.loads` (`none` for a
decode failure, which is answered with the fixed invalid-JSON error
reply); an exception from `handle_message` is answered with an error
reply carrying `str(e)`, after the replies already sent.  The connection
survives either way. -/
def process_frame (s : RAGServer) (frame : Option JValue) : RAGServer × List JValue :=
  match frame with
  | none => (s, [errorJson "Invalid JSON format"])
  | some data =>
    match handle_message s data with
    | (s1, rs, some e) => (s1, rs ++ [errorJson e.message])
    | (s1, rs, none) => (s1, rs)

/-- The whole receive loop of one connection over a list of frames:
frames are processed in order and their replies concatenated (no frame
terminates the loop, matching the per-frame exception handling in the
source). -/
def process_frames (s : RAGServer) : List (Option JValue) → RAGServer × List JValue
  | [] => (s, [])
  | f :: fs =>
    match process_frame s f with
    | (s1, r1) =>
      match process_frames s1 fs with
      | (s2, r2) => (s2, r1 ++ r2)

/-- Frame processing attributed to a connection: in the source every
`websocket.send` inside `handle_message` targets the websocket the frame
arrived on, so the replies are tagged with that connection; the state is
the single shared `RAGServer`. -/
def server_process_frame (s : RAGServer) (conn : Nat) (frame : Option JValue) :
    RAGServer × List (Nat × JValue) :=
  match process_frame s frame with
  | (s1, rs) => (s1, rs.map fun r => (conn, r))

/-- Document state observed on behalf of a connection.  In the source a
single `RAGServer` object is constructed in `main` and its bound
`handle_connection` serves every websocket, so the `pdf_data` read for
any connection is the one shared server field; the connection argument
selects no per-connection copy. -/
def sessionDocument (s : RAGServer) (conn : Nat) : JValue := s.pdf_data

/-- Registration of a new websocket, `self.connected_clients.add(websocket)`. -/
def registryAdd (clients : Finset Nat) (conn : Nat) : Finset Nat :=
  insert conn clients

/-- Cleanup in the `finally:` block, `self.connected_clients.remove(websocket)`:
Python's `set.remove` deletes a member and raises `KeyError` on a
non-member (the set itself is left unchanged in that case). -/
def registryRemove (clients : Finset Nat) (conn : Nat) : Except PyErr (Finset Nat) :=
  if conn ∈ clients then .ok (clients.erase conn) else .error (.keyError "KeyError")

/-- Per-chunk reply lists of the chunk loop, threading the state exactly
as `handle_chunks` does: each entry is the reply list of one chunk, and
an exception ends the list at the failing chunk. -/
def chunkOutputs (s : RAGServer) : List JValue → List (List JValue)
  | [] => []
  | c :: cs =>
    match handle_chunk s c with
    | (_, r1, some _) => [r1]
    | (s1, r1, none) => r1 :: chunkOutputs s1 cs

/-- Key membership in the sense of the claims: a top-level JSON value
contains a key only when it is a mapping holding that key; a value of any
other shape has no keys.  Stated from the claim wording (a frame that
"contains neither a setup key nor a realtime_input key") for comparison
with the source, which instead applies Python's `in` to the decoded
value. -/
def topLevelHasKey (v : JValue) (key : String) : Bool :=
  match v with
  | .obj kvs => kvs.any fun kv => kv.1 = key
  | _ => false

/-- Value of one base64 alphabet character (RFC 4648). -/
def b64Val (c : Char) : Option Nat :=
  if 'A' ≤ c ∧ c ≤ 'Z' then some (c.toNat - 'A'.toNat)
  else if 'a' ≤ c ∧ c ≤ 'z' then some (c.toNat - 'a'.toNat + 26)
  else if '0' ≤ c ∧ c ≤ '9' then some (c.toNat - '0'.toNat + 52)
  else if c = '+' then some 62
  else if c = '/' then some 63
  else none

/-- Standard base64 decoding of a character list into bytes, four input
characters to three bytes, honouring `=` padding. -/
def base64DecodeChars : List Char → List Nat
  | a :: b :: c :: d :: rest =>
    match b64Val a, b64Val b with
    | some va, some vb =>
      if c = '=' then [va * 4 + vb / 16]
      else
        match b64Val c with
        | some vc =>
          if d = '=' then [va * 4 + vb / 16, (vb % 16) * 16 + vc / 4]
          else
            match b64Val d with
            | some vd =>
              (va * 4 + vb / 16) :: ((vb % 16) * 16 + vc / 4) :: ((vc % 4) * 64 + vd) ::
                base64DecodeChars rest
            | none => []
        | none => []
    | _, _ => []
  | _ => []

/-- Modelled from the spec: base64 decoding of a string to its byte
sequence, the "base64-decoded bytes of the data field" the spec promises
the session document to hold.  The source imports the `base64` module but
never calls it, so this definition exists only to state that promise. -/
def base64Decode (s : String) : List Nat := base64DecodeChars s.data

/-- Byte view of an ASCII string (every string in the relevant frames is
ASCII, where UTF-8 bytes and code points agree). -/
def bytesOfString (s : String) : List Nat := s.data.map Char.toNat

/-- PDF media chunk with the given `data` value, the inbound wire shape
of a document chunk. -/
def pdfChunk (d : JValue) : JValue :=
  .obj [("mime_type", .str "application/pdf"), ("data", d)]

/-- Inbound `realtime_input` frame carrying the given media chunks. -/
def realtimeFrame (chunks : List JValue) : JValue :=
  .obj [("realtime_input", .obj [("media_chunks", .arr chunks)])]

/-- Server with two connected clients and no document, the initial state
of the shared-state counterexample. -/
def twoConnServer : RAGServer := { connected_clients := {0, 1}, pdf_data := .null }

/-- Server with one connected client and no document. -/
def oneConnServer : RAGServer := { connected_clients := {0}, pdf_data := .null }

/-- Server already holding a stored document string. -/
def docServer : RAGServer := { connected_clients := {0}, pdf_data := .str "old" }

/-- Helper: a JSON value other than the string `t` fails the string test. -/
theorem jvalIsStr_eq_false (m : JValue) (t : String) (h : m ≠ .str t) :
    jvalIsStr m t = false := by
  cases m with
  | null => rfl
  | bool b => rfl
  | num n => rfl
  | arr xs => rfl
  | obj kvs => rfl
  | str u =>
    simp only [jvalIsStr, decide_eq_false_iff_not]
    intro hEq
    exact h (by rw [hEq])

/-- Helper: one chunk sends at most one reply. -/
theorem handle_chunk_reply_len (s : RAGServer) (c : JValue) :
    (handle_chunk s c).2.1.length ≤ 1 := by
  unfold handle_chunk
  cases hm : pyGetNone c "mime_type" with
  | error e => simp
  | ok m =>
    cases hd : pyGetNone c "data" with
    | error e => simp
    | ok d =>
      by_cases h1 : jvalIsStr m "application/pdf"
      · simp [h1]
      · by_cases h2 : jvalIsStr m "audio/pcm" <;> simp [h1, h2]

/-- Helper: the chunk loop's replies are the in-order concatenation of the
per-chunk reply lists. -/
theorem handle_chunks_join (s : RAGServer) (cs : List JValue) :
    (handle_chunks s cs).2.1 = (chunkOutputs s cs).flatten := by
  induction cs generalizing s with
  | nil => rfl
  | cons c cs ih =>
    unfold handle_chunks chunkOutputs
    rcases h : handle_chunk s c with ⟨s1, r1, _ | e1⟩
    · simp [h, ih s1]
    · simp [h]

/-- Helper: every per-chunk reply list has at most one element. -/
theorem chunkOutputs_len (s : RAGServer) (cs : List JValue) :
    ((chunkOutputs s cs).all fun out => decide (out.length ≤ 1)) = true := by
  induction cs generalizing s with
  | nil => rfl
  | cons c cs ih =>
    unfold chunkOutputs
    have hlen := handle_chunk_reply_len s c
    rcases h : handle_chunk s c with ⟨s1, r1, _ | e1⟩
    · rw [h] at hlen
      simp only [h, List.all_cons, Bool.and_eq_true, decide_eq_true_eq]
      exact ⟨hlen, ih s1⟩
    · rw [h] at hlen
      simp only [h, List.all_cons, List.all_nil, Bool.and_true, decide_eq_true_eq]
      exact hlen

/-- C1 counterexample: the claim says ingesting a PDF chunk on connection
A leaves the document of connection B's session unchanged.  In the source
there is no per-connection session: all handlers share the one
`RAGServer.pdf_data`, so ingesting the chunk on connection 0 changes the
document observed on connection 1 from null to the payload. -/
theorem c1_session_isolation_counterexample :
    sessionDocument (server_process_frame twoConnServer 0
        (some (realtimeFrame [pdfChunk (.str "X")]))).1 1
      ≠ sessionDocument twoConnServer 1 :=
  fun h => JValue.noConfusion h

/-- C1 amended: all connections share the single `RAGServer` state, so
ingesting a PDF chunk on connection A sets the shared `pdf_data` field
and the document observed on every other open connection B changes to
that same payload. -/
theorem c1_shared_document (s : RAGServer) (connA connB : Nat) (d : JValue)
    (h : connA ≠ connB) :
    sessionDocument (server_process_frame s connA
        (some (realtimeFrame [pdfChunk d]))).1 connB = d := rfl

/-- C1 witness: instantiating the amended statement at two concrete
distinct connections. -/
theorem c1_shared_document_witness :
    (0 : Nat) ≠ 1 ∧
      sessionDocument (server_process_frame twoConnServer 0
          (some (realtimeFrame [pdfChunk (.str "X")]))).1 1 = .str "X" :=
  ⟨by decide, c1_shared_document twoConnServer 0 1 (.str "X") (by decide)⟩

/-- C2 counterexample: the claim says the chunk with data "QUJD" sets the
session document to the base64-decoded bytes of the data field.  The
source stores the data value itself: the stored document is the string
"QUJD", whose bytes differ from the decoded bytes [65, 66, 67] that
`base64.b64decode` would have produced (the module is imported and never
used). -/
theorem c2_decoded_bytes_counterexample :
    (process_frame oneConnServer
        (some (realtimeFrame [pdfChunk (.str "QUJD")]))).1.pdf_data = .str "QUJD"
    ∧ base64Decode "QUJD" = [65, 66, 67]
    ∧ bytesOfString "QUJD" ≠ base64Decode "QUJD" :=
  ⟨rfl, rfl, by decide⟩

/-- C2 amended: processing a PDF chunk stores the data field's value
as-is (still base64-encoded, no decoding happens), and the reply is
exactly the acknowledgement with status pdf_received and the fixed
confirmation message. -/
theorem c2_pdf_chunk_stores_raw_data (s : RAGServer) (d : String) :
    process_frame s (some (realtimeFrame [pdfChunk (.str d)]))
      = ({ s with pdf_data := .str d }, [pdfAckJson]) := rfl

/-- C3 counterexample: the claim says removing a non-member from the
registry returns without raising and is a no-op.  The source calls
Python's `set.remove`, which raises `KeyError` on a non-member, so the
call on an empty registry does not return normally. -/
theorem c3_remove_nonmember_counterexample :
    (0 : Nat) ∉ (∅ : Finset Nat)
    ∧ registryRemove (∅ : Finset Nat) 0 = .error (.keyError "KeyError")
    ∧ registryRemove (∅ : Finset Nat) 0 ≠ .ok (∅ : Finset Nat) :=
  ⟨Finset.not_mem_empty 0, rfl, fun h => Except.noConfusion h⟩

/-- C3 amended: removing a connection that is not a member of the
registry raises `KeyError` (the set itself is left unchanged by the
failed call); it is not a no-op, so a double cleanup would fail. -/
theorem c3_remove_nonmember_raises (clients : Finset Nat) (conn : Nat)
    (h : conn ∉ clients) :
    registryRemove clients conn = .error (.keyError "KeyError") := by
  simp [registryRemove, h]

/-- C3 witness: instantiating the amended statement at a concrete
non-member. -/
theorem c3_remove_nonmember_raises_witness :
    (5 : Nat) ∉ (∅ : Finset Nat)
    ∧ registryRemove (∅ : Finset Nat) 5 = .error (.keyError "KeyError") :=
  ⟨Finset.not_mem_empty 5, c3_remove_nonmember_raises ∅ 5 (Finset.not_mem_empty 5)⟩

/-- C4 counterexample: the claim says every successfully parsed frame
without a setup key and without a realtime_input key yields no reply.
The JSON string frame "setup" is valid JSON, is not a mapping and so has
no keys at all, yet Python's `"setup" in data` is substring containment
on strings, so the source answers it with the setup acknowledgement. -/
theorem c4_keyless_frame_counterexample :
    topLevelHasKey (.str "setup") "setup" = false
    ∧ topLevelHasKey (.str "setup") "realtime_input" = false
    ∧ (process_frame oneConnServer (some (.str "setup"))).2 = [setupCompleteJson] :=
  ⟨rfl, rfl, rfl⟩

/-- C4 amended: every frame that parses to a top-level mapping containing
neither a setup key nor a realtime_input key yields no reply at all (no
acknowledgement, no error reply) and leaves the state unchanged;
non-mapping top-level values instead go through Python's `in` operator
(substring test on strings, element test on arrays, `TypeError` on
numbers, booleans and null, which the frame boundary turns into an error
reply). -/
theorem c4_unrecognized_mapping_no_reply (s : RAGServer) (kvs : List (String × JValue))
    (h1 : (kvs.any fun kv => kv.1 = "setup") = false)
    (h2 : (kvs.any fun kv => kv.1 = "realtime_input") = false) :
    process_frame s (some (.obj kvs)) = (s, []) := by
  simp [process_frame, handle_message, pyContains, h1, h2]

/-- C4 witness: a one-key mapping with an unrecognized key produces no
reply. -/
theorem c4_unrecognized_mapping_no_reply_witness :
    (([(("foo" : String), JValue.num 1)]).any fun kv => kv.1 = "setup") = false
    ∧ (([(("foo" : String), JValue.num 1)]).any fun kv => kv.1 = "realtime_input") = false
    ∧ process_frame oneConnServer (some (.obj [("foo", .num 1)])) = (oneConnServer, []) :=
  ⟨by decide, by decide,
   c4_unrecognized_mapping_no_reply oneConnServer [("foo", .num 1)] (by decide) (by decide)⟩

/-- C5 confirmed: a frame whose top-level mapping contains a setup key,
whatever its other entries (so even with a realtime_input key and media
chunks alongside), is answered with exactly the setup acknowledgement;
the state is untouched and no chunk is dispatched. -/
theorem c5_setup_key_priority (s : RAGServer) (kvs : List (String × JValue))
    (h : (kvs.any fun kv => kv.1 = "setup") = true) :
    handle_message s (.obj kvs) = (s, [setupCompleteJson], none) := by
  simp [handle_message, pyContains, h]

/-- C5 witness: a frame holding both a setup key and a realtime_input key
with a PDF chunk gets only the setup acknowledgement. -/
theorem c5_setup_key_priority_witness :
    (([(("setup" : String), JValue.null),
       ("realtime_input", JValue.obj [("media_chunks", .arr [pdfChunk (.str "zz")])])]).any
        fun kv => kv.1 = "setup") = true
    ∧ handle_message oneConnServer
        (.obj [("setup", .null),
               ("realtime_input", .obj [("media_chunks", .arr [pdfChunk (.str "zz")])])])
      = (oneConnServer, [setupCompleteJson], none) :=
  ⟨by decide,
   c5_setup_key_priority oneConnServer
     [("setup", .null),
      ("realtime_input", .obj [("media_chunks", .arr [pdfChunk (.str "zz")])])]
     (by decide)⟩

/-- C6 confirmed: a frame that fails JSON decoding is answered with
exactly the fixed invalid-JSON error reply, the state is unchanged, and
the connection keeps processing the subsequent frames exactly as it would
have without the malformed one. -/
theorem c6_invalid_json_error_reply (s : RAGServer) (rest : List (Option JValue)) :
    process_frames s (none :: rest)
      = ((process_frames s rest).1,
         errorJson "Invalid JSON format" :: (process_frames s rest).2) := rfl

/-- C7 confirmed: after two successful PDF ingestions, whether both
chunks arrive in one realtime_input frame or in two successive frames on
the same connection, the stored document is exactly the second chunk's
payload. -/
theorem c7_last_write_wins (s : RAGServer) (d1 d2 : JValue) :
    ((process_frame s (some (realtimeFrame [pdfChunk d1, pdfChunk d2]))).1).pdf_data = d2
    ∧ ((process_frames s [some (realtimeFrame [pdfChunk d1]),
          some (realtimeFrame [pdfChunk d2])]).1).pdf_data = d2 :=
  ⟨rfl, rfl⟩

/-- C8 confirmed: the chunks of a realtime_input frame are processed
strictly in array order with the state threaded left to right, each chunk
produces at most one reply, and the frame's reply sequence is the
in-order concatenation of the per-chunk reply lists. -/
theorem c8_chunks_in_order (s : RAGServer) (cs : List JValue) :
    (handle_chunks s cs).2.1 = (chunkOutputs s cs).flatten
    ∧ ((chunkOutputs s cs).all fun out => decide (out.length ≤ 1)) = true
    ∧ (handle_message s (realtimeFrame cs)).2.1 = (chunkOutputs s cs).flatten :=
  ⟨handle_chunks_join s cs, chunkOutputs_len s cs, handle_chunks_join s cs⟩

/-- C9 confirmed: a chunk whose mime_type value is neither the string
application/pdf nor the string audio/pcm invokes no handler, emits no
reply, raises nothing and leaves the state unchanged, so the loop simply
moves on to the next chunk. -/
theorem c9_unknown_mime_skipped (s : RAGServer) (kvs : List (String × JValue))
    (h1 : dictGet kvs "mime_type" ≠ .str "application/pdf")
    (h2 : dictGet kvs "mime_type" ≠ .str "audio/pcm") :
    handle_chunk s (.obj kvs) = (s, [], none) := by
  simp [handle_chunk, pyGetNone,
        jvalIsStr_eq_false _ _ h1, jvalIsStr_eq_false _ _ h2]

/-- C9 witness: an image/png chunk is skipped with no state change and no
reply. -/
theorem c9_unknown_mime_skipped_witness :
    dictGet [("mime_type", JValue.str "image/png"), ("data", JValue.str "zz")] "mime_type"
        ≠ .str "application/pdf"
    ∧ dictGet [("mime_type", JValue.str "image/png"), ("data", JValue.str "zz")] "mime_type"
        ≠ .str "audio/pcm"
    ∧ handle_chunk oneConnServer
        (.obj [("mime_type", .str "image/png"), ("data", .str "zz")])
      = (oneConnServer, [], none) :=
  ⟨fun h => JValue.noConfusion h (fun h' => absurd h' (by decide)),
   fun h => JValue.noConfusion h (fun h' => absurd h' (by decide)),
   c9_unknown_mime_skipped oneConnServer
     [("mime_type", .str "image/png"), ("data", .str "zz")]
     (fun h => JValue.noConfusion h (fun h' => absurd h' (by decide)))
     (fun h => JValue.noConfusion h (fun h' => absurd h' (by decide)))⟩

/-- C10 counterexample: the claim says a chunk lacking the data key is
silently skipped with no reply and an unchanged document.  In the source
a chunk declaring mime_type application/pdf but lacking data still takes
the PDF branch: `chunk.get("data")` yields None, the stored document is
overwritten with None (here it had held the string "old"), and the PDF
acknowledgement is sent. -/
theorem c10_missing_data_counterexample :
    (handle_chunk docServer (.obj [("mime_type", .str "application/pdf")])).2.1
        = [pdfAckJson]
    ∧ (handle_chunk docServer (.obj [("mime_type", .str "application/pdf")])).1.pdf_data
        = .null
    ∧ docServer.pdf_data ≠ .null :=
  ⟨rfl, rfl, fun h => JValue.noConfusion h⟩

/-- C10 amended: a chunk lacking the mime_type key raises no error and
emits no reply — `chunk.get` reads the missing key as None, which matches
neither handler, so the chunk is silently skipped and the document is
unchanged.  (A chunk lacking only the data key is not skipped: with a
recognized mime_type its handler still runs on the None payload, as the
counterexample shows.) -/
theorem c10_missing_mime_type_skipped (s : RAGServer) (kvs : List (String × JValue))
    (h : objLookup kvs "mime_type" = none) :
    handle_chunk s (.obj kvs) = (s, [], none) := by
  simp [handle_chunk, pyGetNone, dictGet, h, jvalIsStr]

/-- C10 witness: a chunk holding only a data entry is skipped. -/
theorem c10_missing_mime_type_skipped_witness :
    objLookup [(("data" : String), JValue.str "zz")] "mime_type" = none
    ∧ handle_chunk oneConnServer (.obj [("data", .str "zz")]) = (oneConnServer, [], none) :=
  ⟨rfl, c10_missing_mime_type_skipped oneConnServer [("data", .str "zz")] rfl⟩
